import Mathlib

namespace VN

/-!
Verification of the vscode-neovim reconciliation core against its
natural-language specification.

The definitions below are a shallow embedding of the TypeScript sources:
  * the layout-sync cancellation machinery of `BufferManager`
    (`onDidChangeVisibleTextEditors` / `syncLayout`),
  * the window/buffer cleanup phase of `syncLayout`,
  * `syncActiveEditor`,
  * the `external-buffer` branch of `BufferManager.handleExtensionRequest`,
  * `ViewportManager.scrollNeovim` and its `window-scroll` handler,
  * `EventBus.fire` / `EventBus.on`,
  * the IME composition handling of `TypingManager`,
  * `BufferProvider.provideTextDocumentContent`,
  * `isExternalTextDocument` and the `modifiable` option of
    `initBufferForDocument`.

Maps are embedded as association lists in insertion order (JS `Map`
iteration order); machine integers are `Nat`/`Int`; fallible host calls are
`Option`-valued parameters.
-/

/-! ## C1: layout-sync cancellation state machine

`BufferManager` keeps a single shared `syncLayoutPromise` and a
`syncLayoutCancelTokenSource`.  `onDidChangeVisibleTextEditors` creates the
promise if absent, cancels the current token source and replaces it with a
fresh one; the (debounced) `syncLayout` run holds the token it was started
with, and at its final checkpoint resolves and clears the promise unless its
token has been cancelled.

We model the token history by a counter: `curTok` is the id of the token
source currently installed; a token `t` is cancelled exactly when `t`
differs from `curTok` (every visible-editor change cancels the previous
source).  `promise` records whether `syncLayoutPromise` is outstanding and
`resolves` counts how many times a run has resolved it. -/

structure SyncState where
  curTok : Nat
  promise : Bool
  resolves : Nat
  deriving Repr, DecidableEq

inductive SyncEv where
  /-- the `onDidChangeVisibleTextEditors` handler: create the promise if
  absent, cancel
  the current token source, install a fresh one. -/
  | change : SyncEv
  /-- a `syncLayout` run holding token `tok` reaches its final checkpoint
  (the `cancelToken.isCancellationRequested` test followed by
  `syncLayoutPromise?.resolve(); syncLayoutPromise = undefined`). -/
  | complete : Nat → SyncEv
  deriving Repr, DecidableEq

def initSync : SyncState := ⟨0, false, 0⟩

def syncStep (s : SyncState) : SyncEv → SyncState
  | .change => { s with curTok := s.curTok + 1, promise := true }
  | .complete tok =>
      if tok = s.curTok then
        { s with promise := false
                 resolves := s.resolves + (if s.promise then 1 else 0) }
      else s

def syncRun (s : SyncState) (es : List SyncEv) : SyncState :=
  es.foldl syncStep s

/-- Number of visible-editor-set changes in a trace. -/
def changeCount : List SyncEv → Nat
  | [] => 0
  | .change :: es => changeCount es + 1
  | .complete _ :: es => changeCount es

/-- All completions in the trace belong to runs that are already cancelled
at the moment they reach their checkpoint; `c` is the number of changes seen
so far (equal to the id of the currently installed token). -/
def staleEvents : Nat → List SyncEv → Prop
  | _, [] => True
  | c, .change :: es => staleEvents (c + 1) es
  | c, .complete t :: es => t < c ∧ staleEvents c es

/-- A burst: at least one visible-editor change, in-flight runs that were
superseded may reach their checkpoints at arbitrary points, and the run
holding the latest token completes last. -/
def SyncBurst (es : List SyncEv) : Prop :=
  ∃ pre, es = pre ++ [SyncEv.complete (changeCount pre)] ∧
    0 < changeCount pre ∧ staleEvents 0 pre

/-! ## C2: window/buffer cleanup phase of `syncLayout`

The cleanup phase of `syncLayout` (the part after the editor loop): it walks
`textEditorToWinId`, deleting the `editor → winId` and `winId → editor`
entries of every editor that is no longer visible and collecting the window
ids; then walks `textDocumentToBufferId`, deleting the entry of every
document that is both closed and not shown by any visible editor, collecting
the buffer ids; finally it issues the bulk `delete_buffers` /
`close_windows` calls with the collected ids.  The result record holds the
mapping tables as they stand when the two bulk calls are issued (the map
deletions happen strictly before the calls in the source). -/

/-- A vscode `TextEditor`: reference-stable identity (`eid`) showing a
document (`doc`, a document id). -/
structure Editor where
  eid : Nat
  doc : Nat
  deriving Repr, DecidableEq

/-- The mapping tables owned by `BufferManager`, as insertion-ordered
association lists (JS `Map` semantics). -/
structure LayoutMaps where
  /-- the `textEditorToWinId` map -/
  e2w : List (Editor × Nat)
  /-- the `winIdToEditor` map -/
  w2e : List (Nat × Editor)
  /-- the `textDocumentToBufferId` map (document id → buffer id) -/
  d2b : List (Nat × Nat)
  deriving Repr, DecidableEq

structure CleanupResult where
  maps : LayoutMaps
  /-- window ids passed to the bulk `close_windows` call -/
  unusedWindows : List Nat
  /-- the `(doc, buf)` entries removed; the bulk `delete_buffers` call receives
  the second components -/
  unusedBufferPairs : List (Nat × Nat)
  deriving Repr, DecidableEq

/-- Embeds `currentVisibleEditors.some((editor) => editor.document === document)`. -/
def docVisible (visible : List Editor) (d : Nat) : Bool :=
  visible.any (fun e => e.doc == d)

def syncLayoutCleanup (visible : List Editor) (closed : Nat → Bool)
    (m : LayoutMaps) : CleanupResult :=
  let unusedW := (m.e2w.filter (fun p => !(visible.contains p.1))).map Prod.snd
  let e2w' := m.e2w.filter (fun p => visible.contains p.1)
  let w2e' := m.w2e.filter (fun p => !(unusedW.contains p.1))
  let unusedB := m.d2b.filter (fun p => !(docVisible visible p.1) && closed p.1)
  let d2b' := m.d2b.filter (fun p => !(!(docVisible visible p.1) && closed p.1))
  ⟨⟨e2w', w2e', d2b'⟩, unusedW, unusedB⟩

/-! ## C3: `syncActiveEditor`

`syncActiveEditor` waits for any in-flight layout sync, then: with no active
editor it just finishes; with an active editor lacking a window mapping (or
mapped to the falsy id 0) it logs a desynchronization error and finishes;
otherwise it pushes the cursor and requests `nvim_set_current_win`, logging
(not rethrowing) a request failure.  `finish` resolves and clears the
pending `syncActiveEditorPromise` in every path.  The embedding is a total
function: every TypeScript exception on this path is caught. -/

structure ActiveSyncResult where
  /-- the `logger.error` call reporting "editor desynchronized" -/
  desyncLogged : Bool
  /-- the caught-and-logged `nvim_set_current_win` failure -/
  requestFailureLogged : Bool
  /-- whether `syncActiveEditorPromise?.resolve()` was executed -/
  promiseResolved : Bool
  /-- whether `syncActiveEditorPromise = undefined` was executed -/
  promiseCleared : Bool
  /-- the argument of the issued `nvim_set_current_win` request, if any -/
  setCurrentWin : Option Nat
  deriving Repr, DecidableEq

/-- Embeds `textEditorToWinId.get(editor)`. -/
def winIdLookup (e2w : List (Editor × Nat)) (ed : Editor) : Option Nat :=
  (e2w.find? (fun p => p.1 == ed)).map Prod.snd

def syncActiveEditor (activeEditor : Option Editor) (e2w : List (Editor × Nat))
    (requestFails : Bool) : ActiveSyncResult :=
  match activeEditor with
  | none => ⟨false, false, true, true, none⟩
  | some ed =>
    match winIdLookup e2w ed with
    | none => ⟨true, false, true, true, none⟩
    | some w =>
      -- `if (!winId)`: a falsy (0) id is treated like a missing mapping
      if w = 0 then ⟨true, false, true, true, none⟩
      else ⟨false, requestFails, true, true, some w⟩

/-! ## C10: `isExternalTextDocument` and the `modifiable` buffer option

`isExternalTextDocument` returns `false` for any document whose URI scheme
is `"output"` (even if it is in the external-document set) and otherwise
tests membership in `externalTextDocuments`.  `initBufferForDocument` sets
the buffer option `modifiable` to the negation of that predicate. -/

/-- The slice of a vscode `TextDocument` these functions consult: its URI
scheme and its identity (membership in `externalTextDocuments` is by
document identity). -/
structure SimpleDoc where
  uriScheme : String
  docId : Nat
  deriving Repr, DecidableEq

def isExternalTextDocument (externalDocs : List Nat) (d : SimpleDoc) : Bool :=
  if d.uriScheme == "output" then false
  else externalDocs.contains d.docId

/-- The value `initBufferForDocument` passes for the `modifiable` option:
`!this.isExternalTextDocument(document)`. -/
def initBufferModifiableOption (externalDocs : List Nat) (d : SimpleDoc) : Bool :=
  !(isExternalTextDocument externalDocs d)

/-! ## C4: the `external-buffer` branch of `handleExtensionRequest`

The branch first ignores names starting with the output-prefixed buffer
name; then, if the name is empty or not a recognized host-owned URI, it
ignores buffer id 1 (the backend's initial buffer) and attaches any other
id as an external buffer; otherwise (a recognized host-owned URI) it runs
the host-owned path — find or open the document, initialize and register a
document-to-buffer mapping if absent, and show the document — with **no**
check of the id.  Failures of the document open are swallowed by the
surrounding `try`. -/

def bufNamePre : String := "__vscode_neovim__-"

/-- Whether `p` is a leading segment of `l` (JS `String.prototype.startsWith`,
over the characters of the strings). -/
def listIsPre : List Char → List Char → Bool
  | [], _ => true
  | _ :: _, [] => false
  | p :: ps, c :: cs => p == c && listIsPre ps cs

/-- Whether `sub` occurs as a contiguous segment of `l` (a JS regex substring
test). -/
def listHasSub (sub : List Char) : List Char → Bool
  | [] => sub.isEmpty
  | c :: cs => listIsPre sub (c :: cs) || listHasSub sub cs

def strStarts (s pre : String) : Bool := listIsPre pre.data s.data

def strHasSub (s sub : String) : Bool := listHasSub sub.data s.data

/-- Embeds `BufferManager.isVscodeUriName`; the `/:\/\//` regex is a substring
test for `"://"`. -/
def isVscodeUriName (name : String) : Bool :=
  if strHasSub name "://" then true
  else if strStarts name "output:" || strStarts name (bufNamePre ++ "output:") then true
  else if strStarts name "/search-editor:" || strStarts name (bufNamePre ++ "/search-editor:") then true
  else false

/-- The host-side environment the `external-buffer` branch consults. -/
structure ExtBufEnv where
  /-- the `findDocFromUri` result: an already-open document for the uri -/
  findDoc : String → Option Nat
  /-- the `workspace.openTextDocument` result: the opened document, with
  `none` standing for a thrown error -/
  openDocOk : String → Option Nat
  /-- the backend reports a buffer with this id (`client.buffers`) -/
  bufExists : Nat → Bool
  /-- the value of `window.activeTextEditor?.document` -/
  activeDoc : Option Nat
  /-- the value of `textDocumentToBufferId.has(doc)` -/
  hasMapping : Nat → Bool

/-- Observable effects of the `external-buffer` branch. -/
inductive ExtBufAction where
  /-- a call `attachNeovimExternalBuffer(name, id, ...)` -/
  | attachExternal : String → Nat → ExtBufAction
  /-- a call `initBufferForDocument(doc, buf)` -/
  | initBuffer : Nat → Nat → ExtBufAction
  /-- a call `textDocumentToBufferId.set(doc, id)` -/
  | setMapping : Nat → Nat → ExtBufAction
  /-- a call `window.showTextDocument(doc, ...)` -/
  | showDoc : Nat → ExtBufAction
  deriving Repr, DecidableEq

def handleExternalBuffer (env : ExtBufEnv) (name : String) (id : Nat) :
    List ExtBufAction :=
  if strStarts name (bufNamePre ++ "output:") then []
  else if !(!name.data.isEmpty && isVscodeUriName name) then
    if id = 1 then [] else [.attachExternal name id]
  else
    -- `name.substring(18)`, the length of the buffer-name namespace string
    let normalizedName : String :=
      if strStarts name bufNamePre then ⟨name.data.drop 18⟩ else name
    match (match env.findDoc normalizedName with
           | some d => some d
           | none => env.openDocOk normalizedName) with
    | none => []
    | some doc =>
      (if env.hasMapping doc then []
       else (if env.bufExists id then [.initBuffer doc id] else []) ++
         [.setMapping doc id]) ++
      (if env.activeDoc ≠ some doc then [.showDoc doc] else [])

/-- A concrete environment: document 7 is already open for `file:///a`,
carries no document-to-buffer mapping, the backend lists buffer 1, and no
editor is active. -/
def extBufEnvC4 : ExtBufEnv where
  findDoc := fun _ => some 7
  openDocOk := fun _ => none
  bufExists := fun i => i == 1
  activeDoc := none
  hasMapping := fun _ => false

/-! ## C5: `ViewportManager.scrollNeovim`

`scrollNeovim` returns early unless: the editor is non-null, the backend is
not in insert mode, the first visible range spans more than one line
(`ranges[0].end.line - ranges[0].start.line > 1`), a grid id resolves for
the editor, and a viewport is tracked for that grid; it then issues
`scroll_viewport(Math.max(startLine, 0), endLine)` only when the target top
line differs from the tracked topline and the cursor line equals the
tracked cursor line. -/

/-- A vscode `Range` restricted to the line components used here. -/
structure VisRange where
  startLine : Nat
  endLine : Nat
  deriving Repr, DecidableEq

/-- The slice of a `TextEditor` that `scrollNeovim` reads: its visible
ranges and `selection.active.line`. -/
structure EditorView where
  visibleRanges : List VisRange
  cursorLine : Nat
  deriving Repr, DecidableEq

/-- The `Viewport` class of `viewport_manager.ts`, all fields 0-indexed;
fields are `Int` since they are JS numbers mixed with possibly-negative
targets. -/
structure Viewport where
  line : Int
  col : Int
  topline : Int
  botline : Int
  leftcol : Int
  skipcol : Int
  deriving Repr, DecidableEq

/-- The field initializers of `class Viewport`. -/
def defaultViewport : Viewport := ⟨0, 0, 0, 0, 0, 0⟩

/-- Embeds `gridViewport.get(gridId)` (no default-insertion). -/
def lookupVp (m : List (Nat × Viewport)) (g : Nat) : Option Viewport :=
  (m.find? (fun p => p.1 == g)).map Prod.snd

/-- Embeds `scrollNeovim(editor)`: `gridId` is the result of
`bufferManager.getGridIdFromEditor(editor)`, `gridViewport` the tracked
per-grid viewports, `heightExtend` the configured
`neovimViewportHeightExtend`; the result is the argument pair of the issued
`scroll_viewport` call, if any. -/
def scrollNeovim (editor : Option EditorView) (isInsertMode : Bool)
    (gridId : Option Nat) (gridViewport : List (Nat × Viewport))
    (heightExtend : Nat) : Option (Int × Int) :=
  match editor with
  | none => none
  | some ed =>
    if isInsertMode then none
    else
      match ed.visibleRanges with
      | [] => none
      | r0 :: _ =>
        if (r0.endLine : Int) - (r0.startLine : Int) ≤ 1 then none
        else
          let startLine : Int := (r0.startLine : Int) - heightExtend
          let endLine : Int :=
            ((ed.visibleRanges.getLastD r0).endLine : Int) +
              ed.visibleRanges.length + heightExtend
          let currentLine := ed.cursorLine
          match gridId with
          | none => none
          | some g =>
            match lookupVp gridViewport g with
            | none => none
            | some vp =>
              if startLine ≠ vp.topline ∧ (currentLine : Int) = vp.line then
                some (max startLine 0, endLine)
              else none

/-- The conjunction of conditions C5 requires for a scroll-correction
request, together with the shape of the issued call. -/
def ScrollCallConds (editor : Option EditorView) (isInsertMode : Bool)
    (gridId : Option Nat) (gridViewport : List (Nat × Viewport))
    (heightExtend : Nat) (top bot : Int) : Prop :=
  ∃ ed r0 rs g vp,
    editor = some ed ∧
    isInsertMode = false ∧
    ed.visibleRanges = r0 :: rs ∧
    1 < (r0.endLine : Int) - (r0.startLine : Int) ∧
    gridId = some g ∧
    lookupVp gridViewport g = some vp ∧
    (r0.startLine : Int) - heightExtend ≠ vp.topline ∧
    (ed.cursorLine : Int) = vp.line ∧
    top = max ((r0.startLine : Int) - heightExtend) 0 ∧
    bot = ((ed.visibleRanges.getLastD r0).endLine : Int) +
      ed.visibleRanges.length + heightExtend

/-! ## C6: the `window-scroll` branch of
`ViewportManager.handleExtensionRequest`

The handler resolves the grid for the notified window id through
`bufferManager.getGridIdForWinId` (last-inserted `grids` entry wins, a
falsy grid id 0 counts as unresolved), bails out if none, and otherwise
writes `saveView.leftcol` / `saveView.skipcol` into the grid's viewport
obtained through `getViewport` (which inserts a default viewport on first
reference). -/

/-- The fields of the `winsaveview()`-shaped argument of a `window-scroll`
notification. -/
structure SaveView where
  lnum : Int
  col : Int
  coladd : Int
  curswant : Int
  topline : Int
  topfill : Int
  leftcol : Int
  skipcol : Int
  deriving Repr, DecidableEq

/-- Embeds `BufferManager.getGridIdForWinId`: search the insertion-ordered
`grids` map in reverse for an entry whose `winId` matches. -/
def getGridIdForWinId (grids : List (Nat × Nat)) (winId : Nat) : Option Nat :=
  (grids.reverse.find? (fun p => p.2 == winId)).map Prod.fst

/-- Embeds `getViewport`: insert a default `Viewport` on first reference. -/
def ensureVp (m : List (Nat × Viewport)) (g : Nat) : List (Nat × Viewport) :=
  if (m.find? (fun p => p.1 == g)).isSome then m else m ++ [(g, defaultViewport)]

/-- Embeds `view.leftcol = saveView.leftcol; view.skipcol = saveView.skipcol`. -/
def setScrollFields (sv : SaveView) (v : Viewport) : Viewport :=
  { v with leftcol := sv.leftcol, skipcol := sv.skipcol }

/-- Mutating the object returned by `getViewport` updates the entry of its
grid in place. -/
def updateVpAt : List (Nat × Viewport) → Nat → SaveView → List (Nat × Viewport)
  | [], _, _ => []
  | p :: m, g, sv =>
    (if p.1 = g then (p.1, setScrollFields sv p.2) else p) :: updateVpAt m g sv

def handleWindowScroll (grids : List (Nat × Nat)) (m : List (Nat × Viewport))
    (winId : Nat) (sv : SaveView) : List (Nat × Viewport) :=
  match getGridIdForWinId grids winId with
  | none => m
  | some g =>
    -- `if (!gridId)`: the falsy grid id 0 also bails out
    if g = 0 then m
    else updateVpAt (ensureVp m g) g sv

/-! ## C7: `EventBus.fire` / `EventBus.on`

`on(name, handler, ...)` registers on the underlying emitter the wrapper
`(e) => name === e.name && handler.call(thisArg, e.data)`; `fire(name,
data)` makes the emitter invoke every registered wrapper, in registration
order, with the single event `{name, data}`.  Firing touches no other bus
state. -/

/-- A registration made through `EventBus.on`: the event name subscribed to
and the identity of the handler function. -/
structure Listener where
  name : String
  hid : Nat
  deriving Repr, DecidableEq

/-- The wrapper installed by `on`; its result is the list of handler
invocations `(handler id, received data)` it performs on one event. -/
def onWrapper {α : Type} (r : Listener) (evName : String) (data : α) :
    List (Nat × α) :=
  if evName = r.name then [(r.hid, data)] else []

/-- Embeds `EventBus.fire`: dispatch one event to every registered wrapper
in order; the second component is the bus's registration state after the
dispatch. -/
def fire {α : Type} (listeners : List Listener) (evName : String) (data : α) :
    List (Nat × α) × List Listener :=
  ((listeners.map (fun r => onWrapper r evName data)).flatten, listeners)

/-! ## C8: IME composition handling in `TypingManager`

While `isInComposition` is set, `onVSCodeType` appends typed text to
`composingText` (after the entering/exiting-insert buffers take
precedence), `onReplacePreviousChar` replaces the last `replaceCharCnt`
characters of `composingText` with the new text, and `onCompositionEnd`
clears the flag, forwards the normalized accumulator to the backend iff
the backend is not in insert mode, and always resets the accumulator. -/

structure ModeState where
  isInsertMode : Bool
  isRecordingInInsertMode : Bool
  deriving Repr, DecidableEq

structure TypingState where
  isEnteringInsertMode : Bool
  isExitingInsertMode : Bool
  isInComposition : Bool
  composingText : String
  pendingKeysAfterEnter : String
  pendingKeysAfterExit : String
  deriving Repr, DecidableEq

/-- The forwarding action `onVSCodeType` performs, if any. -/
inductive TypeAction where
  /-- a call `client.input(...)` -/
  | input : String → TypeAction
  /-- a call `commands.executeCommand("default:type", ...)` -/
  | defaultType : String → TypeAction
  deriving Repr, DecidableEq

/-- Embeds `onVSCodeType`; `normalize` stands for `normalizeInputString`
(defined outside this core), `blocking` for `(await client.mode).blocking`. -/
def onVSCodeType (normalize : String → Bool → String) (mode : ModeState)
    (blocking : Bool) (st : TypingState) (text : String) :
    TypingState × Option TypeAction :=
  if st.isEnteringInsertMode then
    ({ st with pendingKeysAfterEnter := st.pendingKeysAfterEnter ++ text }, none)
  else if st.isExitingInsertMode then
    ({ st with pendingKeysAfterExit := st.pendingKeysAfterExit ++ text }, none)
  else if st.isInComposition then
    ({ st with composingText := st.composingText ++ text }, none)
  else if mode.isInsertMode && !mode.isRecordingInInsertMode then
    if blocking then
      (st, some (.input (normalize text (!mode.isRecordingInInsertMode))))
    else
      (st, some (.defaultType text))
  else
    (st, some (.input (normalize text (!mode.isRecordingInInsertMode))))

/-- Embeds `onReplacePreviousChar`: the JS expression
`composingText.substring(0, composingText.length - replaceCharCnt) + text`
(the clamped-at-0 subtraction matches JS `substring` treating a negative
end as 0). -/
def onReplacePreviousChar (st : TypingState) (text : String)
    (replaceCharCnt : Nat) : TypingState :=
  if st.isInComposition then
    { st with composingText :=
        ⟨st.composingText.data.take (st.composingText.data.length - replaceCharCnt)
          ++ text.data⟩ }
  else st

/-- Embeds `onCompositionEnd`: clear the composing flag, forward the
normalized accumulated text iff not in insert mode, reset the accumulator.
The second component is the argument of the `client.input` call, if
issued. -/
def onCompositionEnd (normalize : String → Bool → String) (mode : ModeState)
    (st : TypingState) : TypingState × Option String :=
  ({ st with isInComposition := false, composingText := "" },
   if !mode.isInsertMode then
     some (normalize st.composingText (!mode.isRecordingInInsertMode))
   else none)

/-! ## C9: `BufferProvider.provideTextDocumentContent`

Given a synthetic `vscode-neovim://<id>/...` URI, the provider looks the id
up among the backend's buffers; it returns `undefined` if the buffer is
missing or the request was cancelled, or if the buffer's lines are empty
(`[]` or a single falsy line), and otherwise returns the lines joined with
`"\n"`. -/

/-- Embeds the emptiness test `!lines.length || (lines.length === 1 && !lines[0])`. -/
def emptyBufLines (ls : List String) : Bool :=
  ls.length == 0 || (ls.length == 1 && (ls.headD "").data.isEmpty)

/-- Embeds `provideTextDocumentContent`; `buffers` is the backend's buffer
list (`id`, current lines), `id` the parsed URI authority, `cancelled` the
state of the cancellation token. -/
def provideTextDocumentContent (buffers : List (Nat × List String)) (id : Nat)
    (cancelled : Bool) : Option String :=
  match buffers.find? (fun b => b.1 == id) with
  | none => none
  | some b =>
    if cancelled then none
    else if emptyBufLines b.2 then none
    else some (String.intercalate "\n" b.2)

/-! ## Lemmas and claim theorems -/

theorem syncRun_stale (es : List SyncEv) : ∀ (c : Nat) (p : Bool) (r : Nat),
    staleEvents c es →
    syncRun ⟨c, p, r⟩ es =
      ⟨c + changeCount es, if 0 < changeCount es then true else p, r⟩ := by
  induction es with
  | nil =>
      intro c p r _
      simp [syncRun, changeCount]
  | cons e es ih =>
      intro c p r h
      cases e with
      | change =>
          have h' : staleEvents (c + 1) es := h
          have hes := ih (c + 1) true r h'
          simp only [syncRun, List.foldl_cons, syncStep] at hes ⊢
          rw [hes]
          simp only [SyncState.mk.injEq, changeCount]
          refine ⟨by omega, ?_, trivial⟩
          have hpos : 0 < changeCount es + 1 := Nat.succ_pos _
          rw [if_pos hpos, ite_self]
      | complete t =>
          rcases h with ⟨ht, h'⟩
          have hne : t ≠ c := Nat.ne_of_lt ht
          have hes := ih c p r h'
          simp only [syncRun, List.foldl_cons, syncStep, if_neg hne] at hes ⊢
          rw [show changeCount (SyncEv.complete t :: es) = changeCount es from rfl]
          exact hes

/-- C1: (a) a `syncLayout` run whose cancellation token has been invalidated
by a newer visible-editor change (its token differs from the currently
installed one) leaves the shared state untouched at its checkpoint — in
particular it does not resolve the layout-sync promise; (b) over any burst
of visible-editor-set changes in which superseded runs complete while
cancelled and the latest run completes last, the promise is resolved
exactly once (and is cleared afterwards). -/
theorem syncLayout_cancellation_exactly_once :
    (∀ (s : SyncState) (t : Nat), t ≠ s.curTok → syncStep s (.complete t) = s) ∧
    (∀ es, SyncBurst es →
      (syncRun initSync es).resolves = 1 ∧ (syncRun initSync es).promise = false) := by
  constructor
  · intro s t ht
    simp [syncStep, ht]
  · intro es hb
    rcases hb with ⟨pre, hes, hpos, hstale⟩
    subst hes
    have hpre := syncRun_stale pre 0 false 0 hstale
    have hsplit : syncRun initSync (pre ++ [SyncEv.complete (changeCount pre)]) =
        syncStep (syncRun initSync pre) (SyncEv.complete (changeCount pre)) := by
      simp [syncRun, List.foldl_append]
    rw [hsplit]
    have : syncRun initSync pre =
        ⟨changeCount pre, true, 0⟩ := by
      simpa [initSync, hpos] using hpre
    rw [this]
    simp [syncStep]

/-- Witness for C1: a stale completion at a concrete state is a no-op, and a
concrete burst (two changes; the superseded initial run completes while
cancelled; the latest run completes last) resolves the promise exactly
once. -/
theorem syncLayout_cancellation_exactly_once_witness :
    (syncStep ⟨2, true, 0⟩ (.complete 1) = ⟨2, true, 0⟩) ∧
    ((syncRun initSync [.change, .change, .complete 0, .complete 2]).resolves = 1 ∧
      (syncRun initSync [.change, .change, .complete 0, .complete 2]).promise = false) :=
  ⟨syncLayout_cancellation_exactly_once.1 ⟨2, true, 0⟩ 1 (by decide),
    syncLayout_cancellation_exactly_once.2
      [.change, .change, .complete 0, .complete 2]
      ⟨[.change, .change, .complete 0], rfl, by decide, by
        show 0 < 2 ∧ True
        exact ⟨by decide, trivial⟩⟩⟩

/-- C2: a buffer entry is torn down (appears among the bulk-deleted pairs)
exactly when its document is closed and no visible editor shows it; an
editor that is no longer visible has its window collected for the bulk
close with both of its editor-window mappings already deleted; and a
document still shown by a visible editor keeps its buffer mapping and its
buffer is not deleted. -/
theorem syncLayout_buffer_window_teardown :
    ∀ (visible : List Editor) (closed : Nat → Bool) (m : LayoutMaps),
      (∀ d b, (d, b) ∈ (syncLayoutCleanup visible closed m).unusedBufferPairs ↔
        ((d, b) ∈ m.d2b ∧ closed d = true ∧ docVisible visible d = false)) ∧
      (∀ e w, e ∉ visible → (e, w) ∈ m.e2w →
        w ∈ (syncLayoutCleanup visible closed m).unusedWindows ∧
        (∀ w', (e, w') ∉ (syncLayoutCleanup visible closed m).maps.e2w) ∧
        (∀ e', (w, e') ∉ (syncLayoutCleanup visible closed m).maps.w2e)) ∧
      (∀ e b, e ∈ visible → (e.doc, b) ∈ m.d2b →
        (e.doc, b) ∈ (syncLayoutCleanup visible closed m).maps.d2b ∧
        (e.doc, b) ∉ (syncLayoutCleanup visible closed m).unusedBufferPairs) := by
  intro visible closed m
  refine ⟨?_, ?_, ?_⟩
  · intro d b
    simp only [syncLayoutCleanup, List.mem_filter]
    constructor
    · rintro ⟨hmem, hp⟩
      simp only [Bool.and_eq_true, Bool.not_eq_true'] at hp
      exact ⟨hmem, hp.2, hp.1⟩
    · rintro ⟨hmem, hc, hv⟩
      refine ⟨hmem, ?_⟩
      simp [hv, hc]
  · intro e w hnv hmem
    have hc : visible.contains e = false := by
      simp only [List.contains, List.elem_eq_mem, decide_eq_false_iff_not]
      exact hnv
    refine ⟨?_, ?_, ?_⟩
    · simp only [syncLayoutCleanup, List.mem_map, List.mem_filter]
      exact ⟨(e, w), ⟨hmem, by simp [hnv]⟩, rfl⟩
    · intro w'
      simp only [syncLayoutCleanup, List.mem_filter]
      rintro ⟨-, hp⟩
      rw [hc] at hp
      exact Bool.false_ne_true hp
    · intro e'
      simp only [syncLayoutCleanup, List.mem_filter, Bool.not_eq_true',
        List.contains, List.elem_eq_mem, decide_eq_false_iff_not]
      rintro ⟨-, hwin⟩
      exact hwin (by
        simp only [List.mem_map, List.mem_filter]
        exact ⟨(e, w), ⟨hmem, by simp [hnv]⟩, rfl⟩)
  · intro e b hv hmem
    have hvis : docVisible visible e.doc = true := by
      simp only [docVisible, List.any_eq_true]
      exact ⟨e, hv, by simp⟩
    constructor
    · simp only [syncLayoutCleanup, List.mem_filter]
      exact ⟨hmem, by simp [hvis]⟩
    · simp only [syncLayoutCleanup, List.mem_filter]
      rintro ⟨-, hp⟩
      rw [hvis] at hp
      simp at hp

/-- Witness for C2, the scenario of the spec: editor 1 (column 1, showing
document 100) has closed while editor 2 still shows document 100; window 10
is torn down with its mappings removed, while buffer 2 and the
document-to-buffer mapping survive. -/
theorem syncLayout_buffer_window_teardown_witness :
    ((⟨1, 100⟩ : Editor) ∉ [(⟨2, 100⟩ : Editor)] ∧
      ((⟨1, 100⟩ : Editor), 10) ∈
        (⟨[(⟨1, 100⟩, 10), (⟨2, 100⟩, 11)], [(10, ⟨1, 100⟩), (11, ⟨2, 100⟩)],
          [(100, 2)]⟩ : LayoutMaps).e2w) ∧
    (10 ∈ (syncLayoutCleanup [⟨2, 100⟩] (fun _ => false)
        ⟨[(⟨1, 100⟩, 10), (⟨2, 100⟩, 11)], [(10, ⟨1, 100⟩), (11, ⟨2, 100⟩)],
          [(100, 2)]⟩).unusedWindows ∧
      (∀ w', ((⟨1, 100⟩ : Editor), w') ∉ (syncLayoutCleanup [⟨2, 100⟩] (fun _ => false)
        ⟨[(⟨1, 100⟩, 10), (⟨2, 100⟩, 11)], [(10, ⟨1, 100⟩), (11, ⟨2, 100⟩)],
          [(100, 2)]⟩).maps.e2w) ∧
      (∀ e', ((10 : Nat), e') ∉ (syncLayoutCleanup [⟨2, 100⟩] (fun _ => false)
        ⟨[(⟨1, 100⟩, 10), (⟨2, 100⟩, 11)], [(10, ⟨1, 100⟩), (11, ⟨2, 100⟩)],
          [(100, 2)]⟩).maps.w2e)) ∧
    (((100 : Nat), (2 : Nat)) ∈ (syncLayoutCleanup [⟨2, 100⟩] (fun _ => false)
        ⟨[(⟨1, 100⟩, 10), (⟨2, 100⟩, 11)], [(10, ⟨1, 100⟩), (11, ⟨2, 100⟩)],
          [(100, 2)]⟩).maps.d2b ∧
      ((100 : Nat), (2 : Nat)) ∉ (syncLayoutCleanup [⟨2, 100⟩] (fun _ => false)
        ⟨[(⟨1, 100⟩, 10), (⟨2, 100⟩, 11)], [(10, ⟨1, 100⟩), (11, ⟨2, 100⟩)],
          [(100, 2)]⟩).unusedBufferPairs) :=
  ⟨⟨by decide, by decide⟩,
    (syncLayout_buffer_window_teardown [⟨2, 100⟩] (fun _ => false)
        ⟨[(⟨1, 100⟩, 10), (⟨2, 100⟩, 11)], [(10, ⟨1, 100⟩), (11, ⟨2, 100⟩)],
          [(100, 2)]⟩).2.1 ⟨1, 100⟩ 10 (by decide) (by decide),
    (syncLayout_buffer_window_teardown [⟨2, 100⟩] (fun _ => false)
        ⟨[(⟨1, 100⟩, 10), (⟨2, 100⟩, 11)], [(10, ⟨1, 100⟩), (11, ⟨2, 100⟩)],
          [(100, 2)]⟩).2.2 ⟨2, 100⟩ 2 (by decide) (by decide)⟩

/-- C3: when the active editor has no editor-to-window mapping,
`syncActiveEditor` logs the desynchronization error, issues no
window-switch request, and still resolves and clears the pending
active-editor-sync promise (and it returns normally: the embedding is a
total function). -/
theorem syncActiveEditor_desync_still_resolves :
    ∀ (ed : Editor) (e2w : List (Editor × Nat)) (requestFails : Bool),
      winIdLookup e2w ed = none →
      syncActiveEditor (some ed) e2w requestFails =
        ⟨true, false, true, true, none⟩ := by
  intro ed e2w requestFails h
  simp [syncActiveEditor, h]

/-- Witness for C3: a concrete active editor absent from
`textEditorToWinId`. -/
theorem syncActiveEditor_desync_still_resolves_witness :
    winIdLookup [((⟨2, 100⟩ : Editor), 11)] ⟨1, 100⟩ = none ∧
    syncActiveEditor (some ⟨1, 100⟩) [((⟨2, 100⟩ : Editor), 11)] false =
      ⟨true, false, true, true, none⟩ :=
  ⟨by decide, syncActiveEditor_desync_still_resolves ⟨1, 100⟩
    [((⟨2, 100⟩ : Editor), 11)] false (by decide)⟩

/-- C10: a document with URI scheme `output` is never external (even when it
is in the external-document set), so its buffer is initialized modifiable;
any other document is external exactly when it is in the set, and its
buffer is then initialized non-modifiable (modifiable otherwise). -/
theorem isExternalTextDocument_output_and_membership :
    ∀ (externalDocs : List Nat) (d : SimpleDoc),
      (d.uriScheme = "output" →
        isExternalTextDocument externalDocs d = false ∧
        initBufferModifiableOption externalDocs d = true) ∧
      (d.uriScheme ≠ "output" →
        isExternalTextDocument externalDocs d = externalDocs.contains d.docId ∧
        (externalDocs.contains d.docId = true →
          initBufferModifiableOption externalDocs d = false) ∧
        (externalDocs.contains d.docId = false →
          initBufferModifiableOption externalDocs d = true)) := by
  intro externalDocs d
  constructor
  · intro h
    simp [isExternalTextDocument, initBufferModifiableOption,
      isExternalTextDocument, h]
  · intro h
    have hb : (d.uriScheme == "output") = false := by
      simpa using h
    refine ⟨by simp [isExternalTextDocument, hb], ?_, ?_⟩
    · intro hm
      have hm' : d.docId ∈ externalDocs := by simpa using hm
      simp [initBufferModifiableOption, isExternalTextDocument, hb, hm']
    · intro hm
      have hm' : d.docId ∉ externalDocs := by simpa using hm
      simp [initBufferModifiableOption, isExternalTextDocument, hb, hm']

/-- Witness for C10: document 5 is in the external set; with scheme
`output` it is still modifiable, with scheme `file` it is non-modifiable. -/
theorem isExternalTextDocument_output_and_membership_witness :
    (isExternalTextDocument [5] ⟨"output", 5⟩ = false ∧
      initBufferModifiableOption [5] ⟨"output", 5⟩ = true) ∧
    (isExternalTextDocument [5] ⟨"file", 5⟩ = [5].contains 5 ∧
      initBufferModifiableOption [5] ⟨"file", 5⟩ = false) :=
  ⟨(isExternalTextDocument_output_and_membership [5] ⟨"output", 5⟩).1 rfl,
    (isExternalTextDocument_output_and_membership [5] ⟨"file", 5⟩).2
        (by decide) |>.1,
    ((isExternalTextDocument_output_and_membership [5] ⟨"file", 5⟩).2
        (by decide)).2.1 (by decide)⟩

/-- Counterexample to C4 as stated: for an `external-buffer` request for
buffer id 1 whose name `file:///a` is a recognized host-owned URI, the code
registers the mapping `doc 7 → buffer 1`, initializes the buffer, and
displays the document — id 1 is not ignored on this path. -/
theorem externalBuffer_id1_not_always_ignored :
    handleExternalBuffer extBufEnvC4 "file:///a" 1 =
      [.initBuffer 7 1, .setMapping 7 1, .showDoc 7] ∧
    ExtBufAction.setMapping 7 1 ∈ handleExternalBuffer extBufEnvC4 "file:///a" 1 := by
  constructor
  · rfl
  · rw [show handleExternalBuffer extBufEnvC4 "file:///a" 1 =
      [.initBuffer 7 1, .setMapping 7 1, .showDoc 7] from rfl]
    simp

/-- C4 as amended: buffer id 1 is ignored whenever the announced name is
empty or is not a recognized host-owned URI — no external attach, no
document open or display, and no mapping change; the id-1 guard does not
apply on the host-owned-URI path. -/
theorem externalBuffer_id1_ignored_when_not_host_uri :
    ∀ (env : ExtBufEnv) (name : String),
      (name = "" ∨ isVscodeUriName name = false) →
      handleExternalBuffer env name 1 = [] := by
  intro env name h
  unfold handleExternalBuffer
  by_cases hout : strStarts name (bufNamePre ++ "output:") = true
  · simp [hout]
  · have hcond : (!(!name.data.isEmpty && isVscodeUriName name)) = true := by
      rcases h with h | h
      · subst h
        decide
      · simp [h]
    simp only [Bool.not_eq_true] at hout
    simp [hout, hcond]

/-- Witness for the amended C4: the name `help.txt` is not a host-owned
URI, so buffer id 1 is ignored. -/
theorem externalBuffer_id1_ignored_when_not_host_uri_witness :
    isVscodeUriName "help.txt" = false ∧
    handleExternalBuffer extBufEnvC4 "help.txt" 1 = [] :=
  ⟨by decide, externalBuffer_id1_ignored_when_not_host_uri extBufEnvC4 "help.txt"
    (Or.inr (by decide))⟩

/-- C5: `scrollNeovim` issues a scroll-correction request only when the
editor is non-null, the backend is not in insert mode, the first visible
range spans more than one line, a grid id resolves, a viewport is tracked
for it, the target top line (visible start minus the configured extension)
differs from the tracked topline and the cursor line equals the tracked
cursor line; and the top line actually sent is floored at 0. -/
theorem scrollNeovim_only_when_all_conditions :
    ∀ (editor : Option EditorView) (isInsertMode : Bool) (gridId : Option Nat)
      (gridViewport : List (Nat × Viewport)) (heightExtend : Nat) (top bot : Int),
      scrollNeovim editor isInsertMode gridId gridViewport heightExtend =
        some (top, bot) →
      ScrollCallConds editor isInsertMode gridId gridViewport heightExtend top bot := by
  intro editor ins gid gvp ext top bot h
  cases editor with
  | none => simp [scrollNeovim] at h
  | some ed =>
    cases ins with
    | true => simp [scrollNeovim] at h
    | false =>
      cases hr : ed.visibleRanges with
      | nil => simp [scrollNeovim, hr] at h
      | cons r0 rs =>
        by_cases hspan : (r0.endLine : Int) - (r0.startLine : Int) ≤ 1
        · simp [scrollNeovim, hr, hspan] at h
        · cases gid with
          | none => simp [scrollNeovim, hr, hspan] at h
          | some g =>
            cases hvp : lookupVp gvp g with
            | none => simp [scrollNeovim, hr, hspan, hvp] at h
            | some vp =>
              by_cases hc : ((r0.startLine : Int) - ext ≠ vp.topline ∧
                  (ed.cursorLine : Int) = vp.line)
              · have hsome : some (max ((r0.startLine : Int) - ext) 0,
                    ((ed.visibleRanges.getLastD r0).endLine : Int) +
                      ed.visibleRanges.length + ext) = some (top, bot) := by
                  simpa [scrollNeovim, hr, hspan, hvp, hc] using h
                have hpair := Option.some.inj hsome
                refine ⟨ed, r0, rs, g, vp, rfl, rfl, hr, by omega, rfl, hvp,
                  hc.1, hc.2, ?_, ?_⟩
                · exact (Prod.mk.injEq _ _ _ _ ▸ hpair).1.symm
                · exact (Prod.mk.injEq _ _ _ _ ▸ hpair).2.symm
              · simp [scrollNeovim, hr, hspan, hvp, hc] at h

/-- Witness for C5: a concrete editor whose first visible range is lines
5-20, cursor on line 10, grid 3 tracked with topline 7 and cursor line 10,
extension 2: the call `scroll_viewport(3, 23)` is issued and all the
conditions hold. -/
theorem scrollNeovim_only_when_all_conditions_witness :
    scrollNeovim (some ⟨[⟨5, 20⟩], 10⟩) false (some 3)
        [(3, ⟨10, 0, 7, 25, 0, 0⟩)] 2 = some (3, 23) ∧
    ScrollCallConds (some ⟨[⟨5, 20⟩], 10⟩) false (some 3)
        [(3, ⟨10, 0, 7, 25, 0, 0⟩)] 2 3 23 :=
  ⟨by decide, scrollNeovim_only_when_all_conditions (some ⟨[⟨5, 20⟩], 10⟩)
    false (some 3) [(3, ⟨10, 0, 7, 25, 0, 0⟩)] 2 3 23 (by decide)⟩

theorem lookupVp_updateVpAt_ne (m : List (Nat × Viewport)) (g g' : Nat)
    (sv : SaveView) (h : g' ≠ g) :
    lookupVp (updateVpAt m g sv) g' = lookupVp m g' := by
  induction m with
  | nil => rfl
  | cons p m ih =>
    by_cases hp : p.1 = g
    · have hq' : (p.1 == g') = false := by simp [hp, Ne.symm h]
      rw [show updateVpAt (p :: m) g sv =
        (p.1, setScrollFields sv p.2) :: updateVpAt m g sv by simp [updateVpAt, hp]]
      simp only [lookupVp, List.find?_cons, hq']
      simpa [lookupVp] using ih
    · rw [show updateVpAt (p :: m) g sv = p :: updateVpAt m g sv by
        simp [updateVpAt, hp]]
      by_cases hq : p.1 = g'
      · have hq' : (p.1 == g') = true := by simpa using hq
        simp only [lookupVp, List.find?_cons, hq']
      · have hq' : (p.1 == g') = false := by simpa using hq
        simp only [lookupVp, List.find?_cons, hq']
        simpa [lookupVp] using ih

theorem lookupVp_updateVpAt_eq (m : List (Nat × Viewport)) (g : Nat)
    (sv : SaveView) :
    lookupVp (updateVpAt m g sv) g = (lookupVp m g).map (setScrollFields sv) := by
  induction m with
  | nil => rfl
  | cons p m ih =>
    by_cases hp : p.1 = g
    · have hp' : (p.1 == g) = true := by simpa using hp
      rw [show updateVpAt (p :: m) g sv =
        (p.1, setScrollFields sv p.2) :: updateVpAt m g sv by simp [updateVpAt, hp]]
      simp only [lookupVp, List.find?_cons, hp']
      rfl
    · have hp' : (p.1 == g) = false := by simpa using hp
      rw [show updateVpAt (p :: m) g sv = p :: updateVpAt m g sv by
        simp [updateVpAt, hp]]
      simp only [lookupVp, List.find?_cons, hp']
      simpa [lookupVp] using ih

theorem lookupVp_ensureVp_ne (m : List (Nat × Viewport)) (g g' : Nat)
    (h : g' ≠ g) : lookupVp (ensureVp m g) g' = lookupVp m g' := by
  unfold ensureVp
  by_cases hs : (m.find? (fun p => p.1 == g)).isSome
  · simp [hs]
  · simp only [hs, if_false, Bool.false_eq_true]
    simp [lookupVp, List.find?_append, Ne.symm h]

theorem lookupVp_ensureVp_eq (m : List (Nat × Viewport)) (g : Nat) :
    lookupVp (ensureVp m g) g = some ((lookupVp m g).getD defaultViewport) := by
  unfold ensureVp
  cases hf : m.find? (fun p => p.1 == g) with
  | none =>
    simp only [hf, Option.isSome_none, Bool.false_eq_true, if_false]
    simp [lookupVp, List.find?_append, hf]
  | some p =>
    have hkey : p.1 = g := by
      have := List.find?_some hf
      simpa using this
    simp [hf, lookupVp, Option.getD, hkey]

/-- C6: handling a `window-scroll` notification for a window whose grid is
known updates exactly the `leftcol` and `skipcol` fields of that grid's
viewport to the notified values, leaves its `line`, `col`, `topline` and
`botline` at their previous values (the defaults if the viewport is
created by this first reference), leaves every other grid's viewport entry
unchanged, and if no grid is known for the window id the viewport map is
not modified at all. -/
theorem windowScroll_updates_only_leftcol_skipcol :
    ∀ (grids : List (Nat × Nat)) (m : List (Nat × Viewport)) (winId : Nat)
      (sv : SaveView),
      (getGridIdForWinId grids winId = none →
        handleWindowScroll grids m winId sv = m) ∧
      (∀ g, getGridIdForWinId grids winId = some g → g ≠ 0 →
        (lookupVp (handleWindowScroll grids m winId sv) g =
          some { (lookupVp m g).getD defaultViewport with
                   leftcol := sv.leftcol, skipcol := sv.skipcol } ∧
         ∀ g', g' ≠ g →
           lookupVp (handleWindowScroll grids m winId sv) g' = lookupVp m g')) := by
  intro grids m winId sv
  constructor
  · intro h
    simp [handleWindowScroll, h]
  · intro g hg hg0
    have hres : handleWindowScroll grids m winId sv = updateVpAt (ensureVp m g) g sv := by
      simp [handleWindowScroll, hg, hg0]
    rw [hres]
    constructor
    · rw [lookupVp_updateVpAt_eq, lookupVp_ensureVp_eq]
      rfl
    · intro g' hne
      rw [lookupVp_updateVpAt_ne _ _ _ _ hne, lookupVp_ensureVp_ne _ _ _ hne]

/-- Witness for C6: grid 3 is known for window 42 (and grid absent for
window 7); scrolling window 42 updates only `leftcol`/`skipcol` of grid 3's
viewport, leaves grid 9 alone, and scrolling window 7 changes nothing. -/
theorem windowScroll_updates_only_leftcol_skipcol_witness :
    (getGridIdForWinId [(3, 42)] 7 = none ∧
      handleWindowScroll [(3, 42)] [(3, ⟨1, 2, 3, 4, 5, 6⟩)] 7
        ⟨0, 0, 0, 0, 0, 0, 8, 9⟩ = [(3, ⟨1, 2, 3, 4, 5, 6⟩)]) ∧
    (getGridIdForWinId [(3, 42)] 42 = some 3 ∧
      lookupVp (handleWindowScroll [(3, 42)] [(3, ⟨1, 2, 3, 4, 5, 6⟩), (9, ⟨7, 7, 7, 7, 7, 7⟩)] 42
          ⟨0, 0, 0, 0, 0, 0, 8, 9⟩) 3 = some ⟨1, 2, 3, 4, 8, 9⟩ ∧
      lookupVp (handleWindowScroll [(3, 42)] [(3, ⟨1, 2, 3, 4, 5, 6⟩), (9, ⟨7, 7, 7, 7, 7, 7⟩)] 42
          ⟨0, 0, 0, 0, 0, 0, 8, 9⟩) 9 = some ⟨7, 7, 7, 7, 7, 7⟩) :=
  ⟨⟨by decide,
    (windowScroll_updates_only_leftcol_skipcol [(3, 42)] [(3, ⟨1, 2, 3, 4, 5, 6⟩)] 7
      ⟨0, 0, 0, 0, 0, 0, 8, 9⟩).1 (by decide)⟩,
   by decide,
   by
    have h := (windowScroll_updates_only_leftcol_skipcol [(3, 42)]
      [(3, ⟨1, 2, 3, 4, 5, 6⟩), (9, ⟨7, 7, 7, 7, 7, 7⟩)] 42
      ⟨0, 0, 0, 0, 0, 0, 8, 9⟩).2 3 (by decide) (by decide)
    refine ⟨by rw [h.1]; decide, ?_⟩
    rw [h.2 9 (by decide)]
    decide⟩

/-- C7: firing an event leaves the bus's registration state unchanged, and
the performed handler invocations are exactly the registered handlers whose
subscribed name equals the fired name — in registration order — each
receiving the fired data unchanged. -/
theorem eventBus_fire_pure_fanout :
    ∀ (α : Type) (listeners : List Listener) (n : String) (d : α),
      (fire listeners n d).2 = listeners ∧
      (fire listeners n d).1 =
        (listeners.filter (fun r => r.name == n)).map (fun r => (r.hid, d)) := by
  intro α listeners n d
  refine ⟨rfl, ?_⟩
  induction listeners with
  | nil => rfl
  | cons r rs ih =>
    simp only [fire, List.map_cons, List.flatten] at ih ⊢
    by_cases h : n = r.name
    · have hb : (r.name == n) = true := by simp [h]
      simp only [onWrapper, if_pos h, List.filter_cons, hb, if_true]
      simpa [fire] using congrArg (List.cons (r.hid, d)) ih
    · have hb : (r.name == n) = false := by
        simp only [beq_eq_false_iff_ne]
        exact fun hc => h hc.symm
      simp only [onWrapper, if_neg h, List.filter_cons, hb, List.nil_append]
      simpa [fire] using ih

/-- C8: ending IME composition clears the composing flag and resets the
accumulator, forwarding the accumulated (normalized) text exactly when the
backend is not in insert mode; during composition `onVSCodeType` appends
typed keys to the accumulator without forwarding, and
`onReplacePreviousChar` replaces the last `replaceCharCnt` characters of
the accumulator with the new text. -/
theorem compositionEnd_forwards_iff_not_insert :
    ∀ (normalize : String → Bool → String) (mode : ModeState) (blocking : Bool)
      (st : TypingState) (text : String) (cnt : Nat),
      ((onCompositionEnd normalize mode st).1.isInComposition = false ∧
        (onCompositionEnd normalize mode st).1.composingText = "" ∧
        (onCompositionEnd normalize mode st).2 =
          (if mode.isInsertMode then none
           else some (normalize st.composingText (!mode.isRecordingInInsertMode)))) ∧
      (st.isEnteringInsertMode = false → st.isExitingInsertMode = false →
        st.isInComposition = true →
        (onVSCodeType normalize mode blocking st text).1.composingText =
          st.composingText ++ text ∧
        (onVSCodeType normalize mode blocking st text).2 = none) ∧
      (st.isInComposition = true →
        (onReplacePreviousChar st text cnt).composingText =
          ⟨st.composingText.data.take (st.composingText.data.length - cnt)
            ++ text.data⟩) := by
  intro normalize mode blocking st text cnt
  refine ⟨⟨rfl, rfl, ?_⟩, ?_, ?_⟩
  · cases hm : mode.isInsertMode <;> simp [onCompositionEnd, hm]
  · intro h1 h2 h3
    constructor <;> simp [onVSCodeType, h1, h2, h3]
  · intro h3
    simp [onReplacePreviousChar, h3]

/-- Witness for C8: during composition of `"ab"`, typing `"c"` accumulates
`"abc"`, replacing the previous 1 character with `"d"` yields `"abd"`, and
ending composition outside insert mode forwards the accumulator and resets
it. -/
theorem compositionEnd_forwards_iff_not_insert_witness :
    ((onCompositionEnd (fun s _ => s) ⟨false, false⟩
        ⟨false, false, true, "ab", "", ""⟩).1.isInComposition = false ∧
      (onCompositionEnd (fun s _ => s) ⟨false, false⟩
        ⟨false, false, true, "ab", "", ""⟩).1.composingText = "" ∧
      (onCompositionEnd (fun s _ => s) ⟨false, false⟩
        ⟨false, false, true, "ab", "", ""⟩).2 =
        (if (false : Bool) then none else some "ab")) ∧
    ((onVSCodeType (fun s _ => s) ⟨false, false⟩ false
        ⟨false, false, true, "ab", "", ""⟩ "c").1.composingText = "ab" ++ "c" ∧
      (onVSCodeType (fun s _ => s) ⟨false, false⟩ false
        ⟨false, false, true, "ab", "", ""⟩ "c").2 = none) ∧
    (onReplacePreviousChar ⟨false, false, true, "ab", "", ""⟩ "d" 1).composingText =
      ⟨("ab" : String).data.take (("ab" : String).data.length - 1) ++ ("d" : String).data⟩ :=
  ⟨(compositionEnd_forwards_iff_not_insert (fun s _ => s) ⟨false, false⟩ false
      ⟨false, false, true, "ab", "", ""⟩ "c" 1).1,
    ((compositionEnd_forwards_iff_not_insert (fun s _ => s) ⟨false, false⟩ false
      ⟨false, false, true, "ab", "", ""⟩ "c" 1).2.1 rfl rfl rfl),
    ((compositionEnd_forwards_iff_not_insert (fun s _ => s) ⟨false, false⟩ false
      ⟨false, false, true, "ab", "", ""⟩ "d" 1).2.2 rfl)⟩

/-- C9: the provider returns the found buffer's lines joined by newlines,
and returns no content exactly when no backend buffer with the URI's
authority id exists, the request was cancelled, or the buffer's lines are
empty (no lines, or a single empty line). -/
theorem provideContent_joined_or_none :
    ∀ (buffers : List (Nat × List String)) (id : Nat) (cancelled : Bool),
      (∀ s, provideTextDocumentContent buffers id cancelled = some s →
        ∃ b, buffers.find? (fun b => b.1 == id) = some b ∧
          s = String.intercalate "\n" b.2) ∧
      (provideTextDocumentContent buffers id cancelled = none ↔
        (buffers.find? (fun b => b.1 == id) = none ∨ cancelled = true ∨
          ∃ b, buffers.find? (fun b => b.1 == id) = some b ∧
            emptyBufLines b.2 = true)) := by
  intro buffers id cancelled
  cases hf : buffers.find? (fun b => b.1 == id) with
  | none =>
    constructor
    · intro s hs
      simp [provideTextDocumentContent, hf] at hs
    · simp [provideTextDocumentContent, hf]
  | some b =>
    cases hcan : cancelled with
    | true =>
      constructor
      · intro s hs
        simp [provideTextDocumentContent, hf] at hs
      · simp [provideTextDocumentContent, hf]
    | false =>
      cases hemp : emptyBufLines b.2 with
      | true =>
        constructor
        · intro s hs
          simp [provideTextDocumentContent, hf, hemp] at hs
        · simp only [provideTextDocumentContent, hf, hemp, if_true, if_false,
            Bool.false_eq_true]
          constructor
          · intro _
            exact Or.inr (Or.inr ⟨b, rfl, hemp⟩)
          · intro _
            trivial
      | false =>
        constructor
        · intro s hs
          refine ⟨b, rfl, ?_⟩
          simpa [provideTextDocumentContent, hf, hemp] using hs.symm
        · simp only [provideTextDocumentContent, hf, hemp, if_false,
            Bool.false_eq_true]
          constructor
          · intro hc
            simp at hc
          · rintro (hc | hc | ⟨b', hb', hemp'⟩)
            · exact absurd hc (by simp)
            · exact absurd hc (by simp)
            · have hbb : b = b' := Option.some.inj hb'
              rw [← hbb] at hemp'
              rw [hemp'] at hemp
              exact absurd hemp (by simp)

/-- Witness for C9: buffer 5 holds lines `["a", "b"]`; an uncancelled
request yields `"a\nb"`, consistent with the characterization, and the
empty buffer 6 yields no content. -/
theorem provideContent_joined_or_none_witness :
    provideTextDocumentContent [(5, ["a", "b"]), (6, [""])] 5 false = some "a\nb" ∧
    (∃ b, List.find? (fun b => b.1 == 5) [(5, ["a", "b"]), (6, [""])] = some b ∧
      "a\nb" = String.intercalate "\n" b.2) ∧
    (provideTextDocumentContent [(5, ["a", "b"]), (6, [""])] 6 false = none ↔
      (List.find? (fun b => b.1 == 6) [(5, ["a", "b"]), (6, [""])] = none ∨
        (false : Bool) = true ∨
        ∃ b, List.find? (fun b => b.1 == 6) [(5, ["a", "b"]), (6, [""])] = some b ∧
          emptyBufLines b.2 = true)) :=
  ⟨by decide,
    (provideContent_joined_or_none [(5, ["a", "b"]), (6, [""])] 5 false).1
      "a\nb" (by decide),
    by
      have h := (provideContent_joined_or_none [(5, ["a", "b"]), (6, [""])] 6 false).2
      simpa using h⟩

end VN
